import Mathlib

/-!
Verification of the access-control and data-aggregation core of the
healthcare-records service (`src/main.py`).

The Python process keeps five in-memory dict tables plus a session table.
A Python `dict` preserves insertion order: assigning to an existing key
updates it in place, assigning to a new key appends it.  We embed each
table as an association list with exactly those semantics.  Endpoint
handlers become pure functions; a handler that can `raise HTTPException`
returns `Except HTTPException _`; handlers that mutate a table return the
new database state.  Token generation (`uuid.uuid4()`) is an external
capability ("produce an unguessable unique string"), so the generated
string is passed in as an argument.
-/

namespace Healthcare

/-- An in-memory table keyed by strings, in insertion order. -/
abbrev Table (α : Type) := List (String × α)

namespace Table

/-- Python `d.get(k)`. -/
def get? {α : Type} : Table α → String → Option α
  | [], _ => none
  | (k, v) :: t, k0 => if k = k0 then some v else get? t k0

/-- Python `d[k] = v`: update in place when the key exists, append otherwise. -/
def insert {α : Type} : Table α → String → α → Table α
  | [], k, v => [(k, v)]
  | (k1, v1) :: t, k, v => if k1 = k then (k, v) :: t else (k1, v1) :: insert t k v

/-- Python `k in d`. -/
def contains {α : Type} (t : Table α) (k : String) : Bool :=
  (get? t k).isSome

/-- Python `d.keys()`. -/
def keys {α : Type} (t : Table α) : List String :=
  t.map Prod.fst

/-- Python `d.values()`. -/
def values {α : Type} (t : Table α) : List α :=
  t.map Prod.snd

theorem get?_insert_self {α : Type} (t : Table α) (k : String) (v : α) :
    get? (insert t k v) k = some v := by
  induction t with
  | nil => simp [insert, get?]
  | cons hd tl ih =>
    obtain ⟨k1, v1⟩ := hd
    by_cases h : k1 = k
    · simp [insert, get?, h]
    · simp [insert, get?, h, ih]

theorem get?_insert_of_ne {α : Type} (t : Table α) (k k0 : String) (v : α)
    (h : k0 ≠ k) : get? (insert t k v) k0 = get? t k0 := by
  induction t with
  | nil => simp [insert, get?, Ne.symm h]
  | cons hd tl ih =>
    obtain ⟨k1, v1⟩ := hd
    by_cases h1 : k1 = k
    · subst h1
      simp [insert, get?, Ne.symm h]
    · simp [insert, get?, h1, ih]

theorem get?_eq_none_iff {α : Type} (t : Table α) (k : String) :
    get? t k = none ↔ k ∉ keys t := by
  induction t with
  | nil => simp [get?, keys]
  | cons hd tl ih =>
    obtain ⟨k1, v1⟩ := hd
    by_cases h : k1 = k
    · simp [get?, keys, h]
    · simp [get?, keys, h, ih, Ne.symm h]

theorem insert_of_get?_eq_none {α : Type} (t : Table α) (k : String) (v : α)
    (h : get? t k = none) : insert t k v = t ++ [(k, v)] := by
  induction t with
  | nil => simp [insert]
  | cons hd tl ih =>
    obtain ⟨k1, v1⟩ := hd
    by_cases hk : k1 = k
    · simp [get?, hk] at h
    · simp [get?, hk] at h
      simp [insert, hk, ih h]

theorem contains_eq_true_iff {α : Type} (t : Table α) (k : String) :
    contains t k = true ↔ ∃ v, get? t k = some v := by
  unfold contains
  cases h : get? t k <;> simp [h]

end Table

/-! ### Entity records (the dict rows held in the tables) -/

/-- A row of `users_db` (keyed by email). -/
structure User where
  id : String
  email : String
  password : String
  name : String
  user_type : String
deriving DecidableEq

/-- A row of `patients_db` (keyed by id). -/
structure Patient where
  id : String
  name : String
  email : String
  phone : String
  date_of_birth : String
  address : String
  blood_group : String
  emergency_contact : String
deriving DecidableEq

/-- A row of `doctors_db` (keyed by id). -/
structure Doctor where
  id : String
  name : String
  email : String
  phone : String
  specialization : String
  qualification : String
  experience_years : Nat
deriving DecidableEq

/-- A row of `medical_records_db` (keyed by id). -/
structure MedicalRecord where
  id : String
  patient_id : String
  doctor_id : String
  visit_date : String
  diagnosis : String
  treatment : String
  prescription : String
  notes : String
deriving DecidableEq

/-- A row of `appointments_db` (keyed by id). -/
structure Appointment where
  id : String
  patient_id : String
  doctor_id : String
  appointment_date : String
  appointment_time : String
  status : String
  reason : String
deriving DecidableEq

/-- Request body of POST /signup. -/
structure SignupRequest where
  name : String
  email : String
  password : String
  phone : String
  date_of_birth : String
  address : String
  blood_group : String
  emergency_contact : String
deriving DecidableEq

/-- Request body of POST /login. -/
structure LoginRequest where
  email : String
  password : String
deriving DecidableEq

/-- Request body of POST /appointments. -/
structure AppointmentRequest where
  patient_id : String
  doctor_id : String
  appointment_date : String
  appointment_time : String
  reason : String
deriving DecidableEq

/-- `record.copy()` plus the two doctor fields attached by the
medical-records read. -/
structure MedicalRecordWithDoctor where
  record : MedicalRecord
  doctor_name : String
  doctor_specialization : String
deriving DecidableEq

/-- `appointment.copy()` plus the three name fields attached by the
appointments read. -/
structure AppointmentWithNames where
  appointment : Appointment
  patient_name : String
  doctor_name : String
  doctor_specialization : String
deriving DecidableEq

/-- The public view of a user returned by login (no password field). -/
structure PublicUser where
  id : String
  name : String
  email : String
  user_type : String
deriving DecidableEq

/-- Response of POST /login. -/
structure LoginResponse where
  token : String
  user : PublicUser
deriving DecidableEq

/-- `raise HTTPException(status_code=..., detail=...)`. -/
structure HTTPException where
  status_code : Nat
  detail : String
deriving DecidableEq

/-- The whole in-memory database: the five tables plus the session table. -/
structure DB where
  users_db : Table User
  patients_db : Table Patient
  doctors_db : Table Doctor
  medical_records_db : Table MedicalRecord
  appointments_db : Table Appointment
  current_sessions : Table User
deriving DecidableEq

/-! ### Endpoint handlers, translated one-for-one from `src/main.py` -/

/-- `get_current_user`: resolve a bearer token against `current_sessions`. -/
def get_current_user (db : DB) (token : String) : Except HTTPException User :=
  match Table.get? db.current_sessions token with
  | none => .error ⟨401, "Invalid token"⟩
  | some u => .ok u

/-- POST /signup.  The fresh patient id is `f"pat{len(patients_db) + 1}"`. -/
def signup (db : DB) (signup_data : SignupRequest) :
    Except HTTPException (String × DB) :=
  if Table.contains db.users_db signup_data.email then
    .error ⟨400, "Email already registered"⟩
  else
    let patient_id := "pat" ++ Nat.repr (db.patients_db.length + 1)
    let new_user : User :=
      ⟨patient_id, signup_data.email, signup_data.password, signup_data.name,
        "patient"⟩
    let new_patient : Patient :=
      ⟨patient_id, signup_data.name, signup_data.email, signup_data.phone,
        signup_data.date_of_birth, signup_data.address,
        signup_data.blood_group, signup_data.emergency_contact⟩
    .ok (patient_id,
      { db with
        users_db := Table.insert db.users_db signup_data.email new_user,
        patients_db := Table.insert db.patients_db patient_id new_patient })

/-- POST /login.  `token` stands for the `str(uuid.uuid4())` the handler
generates. -/
def login (db : DB) (login_data : LoginRequest) (token : String) :
    Except HTTPException (LoginResponse × DB) :=
  match Table.get? db.users_db login_data.email with
  | none => .error ⟨401, "Invalid credentials"⟩
  | some user =>
    if user.password ≠ login_data.password then
      .error ⟨401, "Invalid credentials"⟩
    else
      .ok (⟨token, ⟨user.id, user.name, user.email, user.user_type⟩⟩,
        { db with current_sessions := Table.insert db.current_sessions token user })

/-- POST /logout: resolves the caller but removes nothing. -/
def logout (db : DB) (token : String) : Except HTTPException (String × DB) :=
  match get_current_user db token with
  | .error e => .error e
  | .ok _ => .ok ("Logged out successfully", db)

/-- GET /doctors. -/
def get_doctors (db : DB) : List Doctor :=
  Table.values db.doctors_db

/-- GET /patients. -/
def get_patients (db : DB) (current_user : User) :
    Except HTTPException (List Patient) :=
  if current_user.user_type ≠ "doctor" then .error ⟨403, "Access denied"⟩
  else .ok (Table.values db.patients_db)

/-- GET /patient/{patient_id}. -/
def get_patient (db : DB) (patient_id : String) (current_user : User) :
    Except HTTPException Patient :=
  if current_user.user_type = "patient" ∧ current_user.id ≠ patient_id then
    .error ⟨403, "Access denied"⟩
  else
    match Table.get? db.patients_db patient_id with
    | none => .error ⟨404, "Patient not found"⟩
    | some patient => .ok patient

/-- The enrichment step of the medical-records read: copy the record and
attach the doctor's name and specialization, or "Unknown" for both when the
doctor id resolves to nothing. -/
def record_with_doctor (db : DB) (record : MedicalRecord) :
    MedicalRecordWithDoctor :=
  match Table.get? db.doctors_db record.doctor_id with
  | some doctor => ⟨record, doctor.name, doctor.specialization⟩
  | none => ⟨record, "Unknown", "Unknown"⟩

/-- GET /medical-records/{patient_id}. -/
def get_medical_records (db : DB) (patient_id : String) (current_user : User) :
    Except HTTPException (List MedicalRecordWithDoctor) :=
  if current_user.user_type = "patient" ∧ current_user.id ≠ patient_id then
    .error ⟨403, "Access denied"⟩
  else
    .ok (((Table.values db.medical_records_db).filter
            (fun r => decide (r.patient_id = patient_id))).map
          (record_with_doctor db))

/-- GET /doctor-patients/{doctor_id}.  The Python handler collects the
patient ids into a `set`, whose iteration order is unspecified; we model it
as the duplicate-free list of ids and state the claims at the level of
membership. -/
def get_doctor_patients (db : DB) (doctor_id : String) (current_user : User) :
    Except HTTPException (List Patient) :=
  if current_user.user_type ≠ "doctor" ∨ current_user.id ≠ doctor_id then
    .error ⟨403, "Access denied"⟩
  else
    let patient_ids :=
      (((Table.values db.medical_records_db).filter
          (fun r => decide (r.doctor_id = doctor_id))).map
        (fun r => r.patient_id)).dedup
    .ok (patient_ids.filterMap (fun pid => Table.get? db.patients_db pid))

/-- The enrichment step of the appointments read. -/
def appointment_with_names (db : DB) (a : Appointment) : AppointmentWithNames :=
  ⟨a,
    match Table.get? db.patients_db a.patient_id with
    | some patient => patient.name
    | none => "Unknown",
    match Table.get? db.doctors_db a.doctor_id with
    | some doctor => doctor.name
    | none => "Unknown",
    match Table.get? db.doctors_db a.doctor_id with
    | some doctor => doctor.specialization
    | none => "Unknown"⟩

/-- GET /appointments.  After the token is resolved this handler cannot
fail: it filters by the caller's role and enriches each kept appointment. -/
def get_appointments (db : DB) (current_user : User) :
    List AppointmentWithNames :=
  ((Table.values db.appointments_db).filter
      (fun a => decide
        ((current_user.user_type = "patient" ∧ a.patient_id = current_user.id) ∨
         (current_user.user_type = "doctor" ∧ a.doctor_id = current_user.id)))).map
    (appointment_with_names db)

/-- GET /appointments including the token-resolution step. -/
def get_appointments_endpoint (db : DB) (token : String) :
    Except HTTPException (List AppointmentWithNames) :=
  match get_current_user db token with
  | .error e => .error e
  | .ok current_user => .ok (get_appointments db current_user)

/-- POST /appointments.  `appointment_id` stands for the
`str(uuid.uuid4())` the handler generates. -/
def create_appointment (db : DB) (appointment_data : AppointmentRequest)
    (current_user : User) (appointment_id : String) :
    Except HTTPException (String × DB) :=
  if current_user.user_type ≠ "patient" then
    .error ⟨403, "Only patients can book appointments"⟩
  else
    let new_appointment : Appointment :=
      ⟨appointment_id, appointment_data.patient_id, appointment_data.doctor_id,
        appointment_data.appointment_date, appointment_data.appointment_time,
        "scheduled", appointment_data.reason⟩
    .ok (appointment_id,
      { db with
        appointments_db :=
          Table.insert db.appointments_db appointment_id new_appointment })

/-! ### Seed data (`initialize_data` in the source, renamed to avoid a
lexical restriction of this development) -/

/-- Seed doctor doc1. -/
def doctor_doc1 : Doctor :=
  ⟨"doc1", "Dr. Rajesh Sharma", "rajesh.sharma@hospital.com",
    "+91-9876543210", "Cardiology", "MD, DM Cardiology", 15⟩

/-- Seed doctor doc2. -/
def doctor_doc2 : Doctor :=
  ⟨"doc2", "Dr. Priya Patel", "priya.patel@hospital.com",
    "+91-9876543211", "Pediatrics", "MBBS, MD Pediatrics", 10⟩

/-- Seed doctor doc3. -/
def doctor_doc3 : Doctor :=
  ⟨"doc3", "Dr. Amit Kumar", "amit.kumar@hospital.com",
    "+91-9876543212", "Orthopedics", "MBBS, MS Orthopedics", 12⟩

/-- Seed doctor doc4. -/
def doctor_doc4 : Doctor :=
  ⟨"doc4", "Dr. Sunita Rao", "sunita.rao@hospital.com",
    "+91-9876543213", "Gynecology", "MBBS, MD Gynecology", 8⟩

/-- Seed patient pat1. -/
def patient_pat1 : Patient :=
  ⟨"pat1", "Arjun Mehta", "arjun.mehta@email.com", "+91-9876543220",
    "1990-05-15", "Mumbai, Maharashtra", "A+", "+91-9876543221"⟩

/-- Seed patient pat2. -/
def patient_pat2 : Patient :=
  ⟨"pat2", "Kavya Singh", "kavya.singh@email.com", "+91-9876543222",
    "1985-08-22", "Delhi, India", "O+", "+91-9876543223"⟩

/-- Seed login identity of doctor doc1. -/
def user_doc1 : User :=
  ⟨"doc1", "rajesh.sharma@hospital.com", "doc123", "Dr. Rajesh Sharma",
    "doctor"⟩

/-- Seed login identity of patient pat1. -/
def user_pat1 : User :=
  ⟨"pat1", "arjun.mehta@email.com", "pat123", "Arjun Mehta", "patient"⟩

/-- Seed login identity of patient pat2. -/
def user_pat2 : User :=
  ⟨"pat2", "kavya.singh@email.com", "pat123", "Kavya Singh", "patient"⟩

/-- Seed medical record rec1 (pat1 treated by doc1). -/
def record_rec1 : MedicalRecord :=
  ⟨"rec1", "pat1", "doc1", "2024-01-15", "Hypertension",
    "Lifestyle changes and medication", "Amlodipine 5mg once daily",
    "Patient advised to reduce salt intake and exercise regularly"⟩

/-- Seed medical record rec2 (pat1 treated by doc3). -/
def record_rec2 : MedicalRecord :=
  ⟨"rec2", "pat1", "doc3", "2024-02-20", "Lower back pain",
    "Physiotherapy and pain management", "Ibuprofen 400mg twice daily",
    "Recommended ergonomic workplace setup"⟩

/-- Seed medical record rec3 (pat2 treated by doc2). -/
def record_rec3 : MedicalRecord :=
  ⟨"rec3", "pat2", "doc2", "2024-01-10", "Routine checkup",
    "No treatment required", "Multivitamin supplements",
    "Patient in good health, continue regular checkups"⟩

/-- Seed appointment app1. -/
def appointment_app1 : Appointment :=
  ⟨"app1", "pat1", "doc1", "2024-08-25", "10:00", "scheduled",
    "Follow-up for hypertension"⟩

/-- Seed appointment app2. -/
def appointment_app2 : Appointment :=
  ⟨"app2", "pat2", "doc2", "2024-08-26", "14:00", "scheduled",
    "Annual health checkup"⟩

/-- The database right after startup: the result of inserting the sample
rows, in source order, into empty tables. -/
def init_data : DB where
  users_db :=
    [("rajesh.sharma@hospital.com", user_doc1),
     ("priya.patel@hospital.com",
       ⟨"doc2", "priya.patel@hospital.com", "doc123", "Dr. Priya Patel",
         "doctor"⟩),
     ("amit.kumar@hospital.com",
       ⟨"doc3", "amit.kumar@hospital.com", "doc123", "Dr. Amit Kumar",
         "doctor"⟩),
     ("sunita.rao@hospital.com",
       ⟨"doc4", "sunita.rao@hospital.com", "doc123", "Dr. Sunita Rao",
         "doctor"⟩),
     ("arjun.mehta@email.com", user_pat1),
     ("kavya.singh@email.com", user_pat2)]
  patients_db := [("pat1", patient_pat1), ("pat2", patient_pat2)]
  doctors_db :=
    [("doc1", doctor_doc1), ("doc2", doctor_doc2), ("doc3", doctor_doc3),
     ("doc4", doctor_doc4)]
  medical_records_db :=
    [("rec1", record_rec1), ("rec2", record_rec2), ("rec3", record_rec3)]
  appointments_db :=
    [("app1", appointment_app1), ("app2", appointment_app2)]
  current_sessions := []

/-! ### The system's operations as a transition system

The HTTP surface only ever applies the handlers above to the current
database.  `Op` enumerates one inbound call of each endpoint (tokens and
the generated uuid strings appear as data), and `step` is the resulting
state transition: an errored call, like a pure read, leaves the state as
it was. -/

/-- One inbound call. -/
inductive Op where
  | signup (signup_data : SignupRequest)
  | login (login_data : LoginRequest) (token : String)
  | logout (token : String)
  | get_doctors
  | get_patients (token : String)
  | get_patient (patient_id : String) (token : String)
  | get_medical_records (patient_id : String) (token : String)
  | get_doctor_patients (doctor_id : String) (token : String)
  | get_appointments (token : String)
  | create_appointment (appointment_data : AppointmentRequest)
      (token : String) (appointment_id : String)

/-- The state transition performed by one call.  The read endpoints build
copies only (`record.copy()`, `appointment.copy()`) and assign to no
table, so they leave the database unchanged, as does `/logout`. -/
def step (db : DB) : Op → DB
  | .signup sd =>
    match signup db sd with
    | .ok (_, db1) => db1
    | .error _ => db
  | .login ld token =>
    match login db ld token with
    | .ok (_, db1) => db1
    | .error _ => db
  | .logout _ => db
  | .get_doctors => db
  | .get_patients _ => db
  | .get_patient _ _ => db
  | .get_medical_records _ _ => db
  | .get_doctor_patients _ _ => db
  | .get_appointments _ => db
  | .create_appointment ad token aid =>
    match get_current_user db token with
    | .error _ => db
    | .ok cu =>
      match create_appointment db ad cu aid with
      | .ok (_, db1) => db1
      | .error _ => db

/-- Apply a sequence of calls. -/
def run (db : DB) : List Op → DB
  | [] => db
  | op :: ops => run (step db op) ops

/-! ### Helper states and request bodies used by concrete instantiations -/

/-- A database with one live session, obtained by logging in patient pat1
with the seed credentials under the token "tok1". -/
def db_logged_in : DB :=
  match login init_data ⟨"arjun.mehta@email.com", "pat123"⟩ "tok1" with
  | .ok (_, db1) => db1
  | .error _ => init_data

/-- A signup request whose email collides with seed patient pat1. -/
def dup_email_signup : SignupRequest :=
  ⟨"Imposter", "arjun.mehta@email.com", "x", "x", "x", "x", "x", "x"⟩

/-- A booking request by pat1 with doc1. -/
def appointment_req1 : AppointmentRequest :=
  ⟨"pat1", "doc1", "2024-09-01", "09:00", "Checkup"⟩

/-- A signup request with an email absent from the seed Users table. -/
def sd_new : SignupRequest :=
  ⟨"Neha Verma", "neha.verma@email.com", "pw123", "+91-9876543230",
    "1992-01-01", "Pune, Maharashtra", "B+", "+91-9876543231"⟩

/-- The database after `sd_new` signs up against the seed state. -/
def db_after_signup : DB :=
  match signup init_data sd_new with
  | .ok (_, db1) => db1
  | .error _ => init_data

/-! ### The id scheme of signup

Signup assigns `f"pat{len(patients_db) + 1}"`.  To reason about key
freshness we need the decimal rendering `Nat.repr` to be injective, which
we obtain from a decode round-trip over `Nat.toDigitsCore`. -/

/-- Value of one decimal digit character. -/
def decDigit (c : Char) : Nat := c.toNat - 48

/-- Decode a most-significant-first decimal digit string. -/
def decDigits (l : List Char) : Nat :=
  l.foldl (fun a c => a * 10 + decDigit c) 0

/-- The id string assigned by signup when the Patient table will grow to
size n. -/
def patKey (n : Nat) : String := "pat" ++ Nat.repr n

/-- The keys a Patient table of size n has when every row was assigned
sequentially: pat1, pat2, ..., patN. -/
def patKeys (n : Nat) : List String :=
  (List.range n).map (fun i => patKey (i + 1))

/-- The invariant maintained by every operation: the Patient table's keys
are exactly pat1 .. patN in insertion order, N its size. -/
def patient_ids_sequential (db : DB) : Prop :=
  Table.keys db.patients_db = patKeys db.patients_db.length

/-! ### The claims -/

/-- The enrichment step keeps the stored record intact. -/
theorem record_with_doctor_record (db : DB) (r : MedicalRecord) :
    (record_with_doctor db r).record = r := by
  unfold record_with_doctor
  cases Table.get? db.doctors_db r.doctor_id <;> rfl

/-- C1: GET /patient/{id} succeeds with the stored row exactly when the
caller is a doctor, or is the patient with the requested id, and the id is
present; it fails with Forbidden (403) exactly when the caller is a patient
with a different id, and with NotFound (404) exactly when the caller is
allowed but the id is absent from the Patient table. -/
theorem get_patient_access (db : DB) (pid : String) (cu : User)
    (hrole : cu.user_type = "patient" ∨ cu.user_type = "doctor") :
    (∀ p, get_patient db pid cu = .ok p ↔
      ((cu.user_type = "doctor" ∨ (cu.user_type = "patient" ∧ cu.id = pid)) ∧
        Table.get? db.patients_db pid = some p)) ∧
    (get_patient db pid cu = .error ⟨403, "Access denied"⟩ ↔
      cu.user_type = "patient" ∧ cu.id ≠ pid) ∧
    (get_patient db pid cu = .error ⟨404, "Patient not found"⟩ ↔
      ((cu.user_type = "doctor" ∨ (cu.user_type = "patient" ∧ cu.id = pid)) ∧
        Table.get? db.patients_db pid = none)) := by
  rcases hrole with h | h
  · by_cases hid : cu.id = pid
    · cases hlk : Table.get? db.patients_db pid <;>
        simp [get_patient, h, hid, hlk]
    · simp [get_patient, h, hid]
  · cases hlk : Table.get? db.patients_db pid <;>
      simp [get_patient, h, hlk]

/-- Witness for C1: doctor doc1 reads seed patient pat1. -/
theorem get_patient_access_witness :
    get_patient init_data "pat1" user_doc1 = .ok patient_pat1 :=
  ((get_patient_access init_data "pat1" user_doc1 (Or.inr rfl)).1
      patient_pat1).mpr ⟨Or.inl rfl, rfl⟩

/-- C9: in GET /patient/{id} and GET /medical-records/{id} the ownership
check runs before the existence check: a patient caller asking for a
different id gets Forbidden for every database state, in particular when
the requested id is absent, and never NotFound. -/
theorem ownership_checked_before_existence (db : DB) (pid : String)
    (cu : User) (hrole : cu.user_type = "patient") (hid : cu.id ≠ pid) :
    get_patient db pid cu = .error ⟨403, "Access denied"⟩ ∧
    get_medical_records db pid cu = .error ⟨403, "Access denied"⟩ ∧
    get_patient db pid cu ≠ .error ⟨404, "Patient not found"⟩ := by
  refine ⟨by simp [get_patient, hrole, hid], by simp [get_medical_records, hrole, hid], ?_⟩
  simp [get_patient, hrole, hid]

/-- Witness for C9: pat1 asks for the absent id "pat999" and still sees
Forbidden, not NotFound. -/
theorem ownership_checked_before_existence_witness :
    get_patient init_data "pat999" user_pat1 = .error ⟨403, "Access denied"⟩ ∧
    get_medical_records init_data "pat999" user_pat1 =
      .error ⟨403, "Access denied"⟩ ∧
    get_patient init_data "pat999" user_pat1 ≠
      .error ⟨404, "Patient not found"⟩ :=
  ownership_checked_before_existence init_data "pat999" user_pat1 rfl
    (by decide)

/-- C6: signup with an email already keyed in the Users table fails with
Conflict (400) and the state transition leaves every table exactly as it
was. -/
theorem signup_conflict (db : DB) (sd : SignupRequest)
    (h : Table.contains db.users_db sd.email = true) :
    signup db sd = .error ⟨400, "Email already registered"⟩ ∧
    step db (Op.signup sd) = db := by
  refine ⟨by simp [signup, h], ?_⟩
  simp [step, signup, h]

/-- Witness for C6: signup with seed patient pat1's email. -/
theorem signup_conflict_witness :
    signup init_data dup_email_signup =
      .error ⟨400, "Email already registered"⟩ ∧
    step init_data (Op.signup dup_email_signup) = init_data :=
  signup_conflict init_data dup_email_signup rfl

/-- C8: a successful POST /logout returns the state it was given: the
session table is untouched and every live token still resolves to the same
identity, so sessions are never invalidated by logout. -/
theorem logout_is_noop (db : DB) (token msg : String) (db1 : DB)
    (h : logout db token = .ok (msg, db1)) :
    db1 = db ∧ ∀ t, get_current_user db1 t = get_current_user db t := by
  unfold logout at h
  cases hc : get_current_user db token <;> rw [hc] at h
  · exact absurd h (by simp)
  · simp only [Except.ok.injEq, Prod.mk.injEq] at h
    obtain ⟨-, hdb⟩ := h
    subst hdb
    exact ⟨rfl, fun t => rfl⟩

/-- Witness for C8: logging out of a state with one live session. -/
theorem logout_is_noop_witness :
    db_logged_in = db_logged_in ∧
    ∀ t, get_current_user db_logged_in t = get_current_user db_logged_in t :=
  logout_is_noop db_logged_in "tok1" "Logged out successfully" db_logged_in
    rfl

/-- C5: POST /appointments by a non-patient fails with Forbidden and the
state transition leaves the appointment table unchanged; by a patient it
succeeds, appends a brand-new row under the externally generated fresh id,
stores status "scheduled" and the body fields verbatim, returns that id,
and touches no other table and no other appointment. -/
theorem create_appointment_spec (db : DB) (ad : AppointmentRequest)
    (token aid : String) (cu : User)
    (hcu : get_current_user db token = .ok cu)
    (hfresh : Table.get? db.appointments_db aid = none) :
    (cu.user_type ≠ "patient" →
      create_appointment db ad cu aid =
        .error ⟨403, "Only patients can book appointments"⟩ ∧
      step db (Op.create_appointment ad token aid) = db) ∧
    (cu.user_type = "patient" →
      ∃ db1, create_appointment db ad cu aid = .ok (aid, db1) ∧
        db1.appointments_db = db.appointments_db ++
          [(aid, ⟨aid, ad.patient_id, ad.doctor_id, ad.appointment_date,
            ad.appointment_time, "scheduled", ad.reason⟩)] ∧
        Table.get? db1.appointments_db aid =
          some ⟨aid, ad.patient_id, ad.doctor_id, ad.appointment_date,
            ad.appointment_time, "scheduled", ad.reason⟩ ∧
        (∀ k, k ≠ aid →
          Table.get? db1.appointments_db k = Table.get? db.appointments_db k) ∧
        db1.users_db = db.users_db ∧ db1.patients_db = db.patients_db ∧
        db1.doctors_db = db.doctors_db ∧
        db1.medical_records_db = db.medical_records_db ∧
        db1.current_sessions = db.current_sessions) := by
  constructor
  · intro hrole
    refine ⟨by simp [create_appointment, hrole], ?_⟩
    simp [step, hcu, create_appointment, hrole]
  · intro hrole
    set new_appointment : Appointment :=
      ⟨aid, ad.patient_id, ad.doctor_id, ad.appointment_date,
        ad.appointment_time, "scheduled", ad.reason⟩ with hna
    refine ⟨{ db with
        appointments_db := Table.insert db.appointments_db aid new_appointment },
      by simp [create_appointment, hrole, hna], ?_, ?_, ?_, rfl, rfl, rfl,
      rfl, rfl⟩
    · exact Table.insert_of_get?_eq_none _ _ _ hfresh
    · exact Table.get?_insert_self _ _ _
    · intro k hk
      exact Table.get?_insert_of_ne _ _ _ _ hk

/-- Witness for C5: pat1, logged in under "tok1", books with doc1 under
the fresh id "appt-uuid-3". -/
theorem create_appointment_spec_witness :
    (user_pat1.user_type ≠ "patient" →
      create_appointment db_logged_in appointment_req1 user_pat1
          "appt-uuid-3" =
        .error ⟨403, "Only patients can book appointments"⟩ ∧
      step db_logged_in
        (Op.create_appointment appointment_req1 "tok1" "appt-uuid-3") =
        db_logged_in) ∧
    (user_pat1.user_type = "patient" →
      ∃ db1, create_appointment db_logged_in appointment_req1 user_pat1
          "appt-uuid-3" = .ok ("appt-uuid-3", db1) ∧
        db1.appointments_db = db_logged_in.appointments_db ++
          [("appt-uuid-3", ⟨"appt-uuid-3", "pat1", "doc1", "2024-09-01",
            "09:00", "scheduled", "Checkup"⟩)] ∧
        Table.get? db1.appointments_db "appt-uuid-3" =
          some ⟨"appt-uuid-3", "pat1", "doc1", "2024-09-01", "09:00",
            "scheduled", "Checkup"⟩ ∧
        (∀ k, k ≠ "appt-uuid-3" →
          Table.get? db1.appointments_db k =
            Table.get? db_logged_in.appointments_db k) ∧
        db1.users_db = db_logged_in.users_db ∧
        db1.patients_db = db_logged_in.patients_db ∧
        db1.doctors_db = db_logged_in.doctors_db ∧
        db1.medical_records_db = db_logged_in.medical_records_db ∧
        db1.current_sessions = db_logged_in.current_sessions) :=
  create_appointment_spec db_logged_in appointment_req1 "tok1" "appt-uuid-3"
    user_pat1 rfl rfl

/-- C2: for an allowed caller (any doctor, or patient P themself),
GET /medical-records/{P} succeeds and returns, in order, exactly the
stored records whose patient_id is P; each element is a copy of the
stored record carrying doctor_name and doctor_specialization from the
Doctor row of the record's doctor_id, or the literal "Unknown" for both
when that id has no Doctor row; the read leaves the database unchanged. -/
theorem medical_records_spec (db : DB) (pid : String) (cu : User)
    (token : String)
    (hallow : cu.user_type = "doctor" ∨
      (cu.user_type = "patient" ∧ cu.id = pid)) :
    ∃ rs, get_medical_records db pid cu = .ok rs ∧
      rs.map (fun e => e.record) =
        (Table.values db.medical_records_db).filter
          (fun r => decide (r.patient_id = pid)) ∧
      (∀ e ∈ rs, e.record.patient_id = pid ∧
        ((∃ d, Table.get? db.doctors_db e.record.doctor_id = some d ∧
            e.doctor_name = d.name ∧
            e.doctor_specialization = d.specialization) ∨
          (Table.get? db.doctors_db e.record.doctor_id = none ∧
            e.doctor_name = "Unknown" ∧
            e.doctor_specialization = "Unknown"))) ∧
      step db (Op.get_medical_records pid token) = db := by
  have hcond : ¬(cu.user_type = "patient" ∧ cu.id ≠ pid) := by
    rcases hallow with h | ⟨h1, h2⟩
    · simp [h]
    · simp [h1, h2]
  refine ⟨((Table.values db.medical_records_db).filter
      (fun r => decide (r.patient_id = pid))).map (record_with_doctor db),
    by simp [get_medical_records, hcond], ?_, ?_, rfl⟩
  · rw [List.map_map]
    exact List.map_id'' (fun r => record_with_doctor_record db r) _
  · intro e he
    rw [List.mem_map] at he
    obtain ⟨r, hr, rfl⟩ := he
    rw [List.mem_filter, decide_eq_true_eq] at hr
    obtain ⟨-, hrp⟩ := hr
    refine ⟨by simp [record_with_doctor_record, hrp], ?_⟩
    cases hl : Table.get? db.doctors_db r.doctor_id with
    | some d =>
      left
      exact ⟨d, by simp [record_with_doctor_record, hl],
        by simp [record_with_doctor, hl], by simp [record_with_doctor, hl]⟩
    | none =>
      right
      exact ⟨by simp [record_with_doctor_record, hl],
        by simp [record_with_doctor, hl], by simp [record_with_doctor, hl]⟩

/-- Witness for C2: patient pat1 reads their own records in the seed
state. -/
theorem medical_records_spec_witness :
    ∃ rs, get_medical_records init_data "pat1" user_pat1 = .ok rs ∧
      rs.map (fun e => e.record) =
        (Table.values init_data.medical_records_db).filter
          (fun r => decide (r.patient_id = "pat1")) ∧
      (∀ e ∈ rs, e.record.patient_id = "pat1" ∧
        ((∃ d, Table.get? init_data.doctors_db e.record.doctor_id = some d ∧
            e.doctor_name = d.name ∧
            e.doctor_specialization = d.specialization) ∨
          (Table.get? init_data.doctors_db e.record.doctor_id = none ∧
            e.doctor_name = "Unknown" ∧
            e.doctor_specialization = "Unknown"))) ∧
      step init_data (Op.get_medical_records "pat1" "tok1") = init_data :=
  medical_records_spec init_data "pat1" user_pat1 "tok1" (Or.inr ⟨rfl, rfl⟩)

/-- C3: GET /appointments never fails once the caller is resolved; a
patient caller gets, in order, exactly the appointments whose patient_id
is their id, a doctor caller exactly those whose doctor_id is their id;
every returned element carries patient_name, doctor_name and
doctor_specialization resolved from the tables, with "Unknown" for a
dangling reference. -/
theorem appointments_spec (db : DB) (cu : User) :
    (∀ token cu1, get_current_user db token = .ok cu1 →
      get_appointments_endpoint db token = .ok (get_appointments db cu1)) ∧
    (cu.user_type = "patient" →
      (get_appointments db cu).map (fun e => e.appointment) =
        (Table.values db.appointments_db).filter
          (fun a => decide (a.patient_id = cu.id))) ∧
    (cu.user_type = "doctor" →
      (get_appointments db cu).map (fun e => e.appointment) =
        (Table.values db.appointments_db).filter
          (fun a => decide (a.doctor_id = cu.id))) ∧
    (∀ e ∈ get_appointments db cu,
      (cu.user_type = "patient" → e.appointment.patient_id = cu.id) ∧
      (cu.user_type = "doctor" → e.appointment.doctor_id = cu.id) ∧
      ((∃ p, Table.get? db.patients_db e.appointment.patient_id = some p ∧
          e.patient_name = p.name) ∨
        (Table.get? db.patients_db e.appointment.patient_id = none ∧
          e.patient_name = "Unknown")) ∧
      ((∃ d, Table.get? db.doctors_db e.appointment.doctor_id = some d ∧
          e.doctor_name = d.name ∧
          e.doctor_specialization = d.specialization) ∨
        (Table.get? db.doctors_db e.appointment.doctor_id = none ∧
          e.doctor_name = "Unknown" ∧
          e.doctor_specialization = "Unknown"))) := by
  refine ⟨?_, ?_, ?_, ?_⟩
  · intro token cu1 h
    simp [get_appointments_endpoint, h]
  · intro h
    unfold get_appointments
    rw [List.map_map]
    refine (List.map_id'' (fun a => rfl) _).trans ?_
    refine List.filter_congr ?_
    intro a _
    simp [h, decide_eq_decide]
  · intro h
    unfold get_appointments
    rw [List.map_map]
    refine (List.map_id'' (fun a => rfl) _).trans ?_
    refine List.filter_congr ?_
    intro a _
    simp [h, decide_eq_decide]
  · intro e he
    unfold get_appointments at he
    rw [List.mem_map] at he
    obtain ⟨a, ha, rfl⟩ := he
    rw [List.mem_filter, decide_eq_true_eq] at ha
    obtain ⟨-, hcase⟩ := ha
    refine ⟨?_, ?_, ?_, ?_⟩
    · intro hrole
      rcases hcase with ⟨-, h2⟩ | ⟨h1, -⟩
      · exact h2
      · rw [hrole] at h1; exact absurd h1 (by decide)
    · intro hrole
      rcases hcase with ⟨h1, -⟩ | ⟨-, h2⟩
      · rw [hrole] at h1; exact absurd h1 (by decide)
      · exact h2
    · cases hl : Table.get? db.patients_db a.patient_id with
      | some p => exact Or.inl ⟨p, hl, by simp [appointment_with_names, hl]⟩
      | none => exact Or.inr ⟨hl, by simp [appointment_with_names, hl]⟩
    · cases hl : Table.get? db.doctors_db a.doctor_id with
      | some d =>
        exact Or.inl ⟨d, hl, by simp [appointment_with_names, hl],
          by simp [appointment_with_names, hl]⟩
      | none =>
        exact Or.inr ⟨hl, by simp [appointment_with_names, hl],
          by simp [appointment_with_names, hl]⟩

/-- Witness for C3: patient pat1's appointment list in the seed state is
exactly the appointments whose patient_id is pat1. -/
theorem appointments_spec_witness :
    (get_appointments init_data user_pat1).map (fun e => e.appointment) =
      (Table.values init_data.appointments_db).filter
        (fun a => decide (a.patient_id = "pat1")) :=
  (appointments_spec init_data user_pat1).2.1 rfl

/-- C4: GET /doctor-patients/{Y} succeeds exactly for the caller who is a
doctor with id Y and is Forbidden for everyone else; on success the result
holds precisely the Patient rows reachable by resolving a patient_id that
appears in some medical record of doctor Y, dangling ids being dropped
without a placeholder. -/
theorem doctor_patients_spec (db : DB) (did : String) (cu : User) :
    ((∃ ps, get_doctor_patients db did cu = .ok ps) ↔
      (cu.user_type = "doctor" ∧ cu.id = did)) ∧
    (¬(cu.user_type = "doctor" ∧ cu.id = did) →
      get_doctor_patients db did cu = .error ⟨403, "Access denied"⟩) ∧
    ∀ ps, get_doctor_patients db did cu = .ok ps →
      ∀ p, p ∈ ps ↔ ∃ r ∈ Table.values db.medical_records_db,
        r.doctor_id = did ∧ Table.get? db.patients_db r.patient_id = some p := by
  by_cases hC : cu.user_type = "doctor" ∧ cu.id = did
  · obtain ⟨h1, h2⟩ := hC
    have hok : get_doctor_patients db did cu =
        .ok ((((Table.values db.medical_records_db).filter
            (fun r => decide (r.doctor_id = did))).map
          (fun r => r.patient_id)).dedup.filterMap
            (fun pid => Table.get? db.patients_db pid)) := by
      simp [get_doctor_patients, h1, h2]
    refine ⟨by simp [hok, h1, h2], by simp [h1, h2], ?_⟩
    intro ps hps
    rw [hok] at hps
    simp only [Except.ok.injEq] at hps
    subst hps
    intro p
    simp only [List.mem_filterMap, List.mem_dedup, List.mem_map,
      List.mem_filter, decide_eq_true_eq]
    constructor
    · rintro ⟨pid, ⟨r, ⟨hrmem, hrdoc⟩, hrpid⟩, hget⟩
      exact ⟨r, hrmem, hrdoc, by rw [hrpid]; exact hget⟩
    · rintro ⟨r, hrmem, hrdoc, hget⟩
      exact ⟨r.patient_id, ⟨r, ⟨hrmem, hrdoc⟩, rfl⟩, hget⟩
  · have herr : get_doctor_patients db did cu =
        .error ⟨403, "Access denied"⟩ := by
      unfold get_doctor_patients
      rw [if_pos]
      rw [Decidable.not_and_iff_or_not] at hC
      exact hC
    refine ⟨by simp [herr, hC], fun _ => herr, ?_⟩
    intro ps hps
    rw [herr] at hps
    cases hps

/-- Witness for C4: doc1 reads its treated-patients list in the seed
state; pat1 is in it because record rec1 links doc1 to pat1. -/
theorem doctor_patients_spec_witness :
    patient_pat1 ∈ [patient_pat1] ↔
      ∃ r ∈ Table.values init_data.medical_records_db,
        r.doctor_id = "doc1" ∧
        Table.get? init_data.patients_db r.patient_id = some patient_pat1 :=
  (doctor_patients_spec init_data "doc1" user_doc1).2.2
    [patient_pat1] rfl patient_pat1

/-- A login whose email resolves to a user with the matching password
succeeds and binds the token to that user. -/
theorem login_ok_of_get? (db : DB) (email pw token : String) (u : User)
    (hu : Table.get? db.users_db email = some u) (hpw : u.password = pw) :
    login db ⟨email, pw⟩ token =
      .ok (⟨token, ⟨u.id, u.name, u.email, u.user_type⟩⟩,
        { db with
          current_sessions := Table.insert db.current_sessions token u }) := by
  simp only [login, hu]
  exact if_neg (fun h => h hpw)

/-- A login whose email resolves to a user with a different password fails
with Unauthorized. -/
theorem login_err_of_pw (db : DB) (email pw token : String) (u : User)
    (hu : Table.get? db.users_db email = some u) (hpw : u.password ≠ pw) :
    login db ⟨email, pw⟩ token = .error ⟨401, "Invalid credentials"⟩ := by
  simp only [login, hu]
  exact if_pos hpw

/-- A login whose email is absent from the Users table fails with
Unauthorized. -/
theorem login_err_of_absent (db : DB) (email pw token : String)
    (hu : Table.get? db.users_db email = none) :
    login db ⟨email, pw⟩ token = .error ⟨401, "Invalid credentials"⟩ := by
  simp only [login, hu]

/-- A token freshly bound in the session table resolves to the bound
user. -/
theorem get_current_user_of_insert (db : DB) (s : Table User)
    (token : String) (u : User)
    (h : db.current_sessions = Table.insert s token u) :
    get_current_user db token = .ok u := by
  simp only [get_current_user, h, Table.get?_insert_self]

/-- C7: after a successful signup, a login with exactly the signed-up
email and password succeeds, the issued token resolves through the session
table to the same identity (same id, role patient), and the returned user
view carries only id, name, email and role — by construction it has no
password field; a login with a wrong password for that email, or with an
email absent from the Users table, fails with Unauthorized. -/
theorem signup_login_roundtrip (db0 : DB) (sd : SignupRequest) (pid : String)
    (db1 : DB) (hsign : signup db0 sd = .ok (pid, db1)) :
    (∀ token, ∃ db2,
      login db1 ⟨sd.email, sd.password⟩ token =
        .ok (⟨token, ⟨pid, sd.name, sd.email, "patient"⟩⟩, db2) ∧
      ∃ u, get_current_user db2 token = .ok u ∧
        u.id = pid ∧ u.user_type = "patient") ∧
    (∀ pw token, pw ≠ sd.password →
      login db1 ⟨sd.email, pw⟩ token = .error ⟨401, "Invalid credentials"⟩) ∧
    (∀ email pw token, Table.get? db1.users_db email = none →
      login db1 ⟨email, pw⟩ token = .error ⟨401, "Invalid credentials"⟩) := by
  unfold signup at hsign
  by_cases hc : Table.contains db0.users_db sd.email = true
  · rw [if_pos hc] at hsign; cases hsign
  · rw [if_neg hc] at hsign
    simp only [Except.ok.injEq, Prod.mk.injEq] at hsign
    obtain ⟨hpid, hdb⟩ := hsign
    have hu1 : Table.get? db1.users_db sd.email =
        some ⟨pid, sd.email, sd.password, sd.name, "patient"⟩ := by
      rw [← hdb, ← hpid]
      exact Table.get?_insert_self _ _ _
    refine ⟨?_, ?_, ?_⟩
    · intro token
      refine ⟨{ db1 with
          current_sessions := Table.insert db1.current_sessions token
            ⟨pid, sd.email, sd.password, sd.name, "patient"⟩ }, ?_, ?_⟩
      · exact login_ok_of_get? db1 sd.email sd.password token _ hu1 rfl
      · exact ⟨⟨pid, sd.email, sd.password, sd.name, "patient"⟩,
          get_current_user_of_insert _ db1.current_sessions token _ rfl,
          rfl, rfl⟩
    · intro pw token hpw
      exact login_err_of_pw db1 sd.email pw token _ hu1
        (fun h => hpw h.symm)
    · intro email pw token hnone
      exact login_err_of_absent db1 email pw token hnone

/-- Witness for C7: Neha signs up against the seed state and logs back in
with the same credentials; the token "tok9" resolves to the new identity. -/
theorem signup_login_roundtrip_witness :
    ∃ db2, login db_after_signup ⟨"neha.verma@email.com", "pw123"⟩ "tok9" =
      .ok (⟨"tok9",
        ⟨"pat3", "Neha Verma", "neha.verma@email.com", "patient"⟩⟩, db2) ∧
    ∃ u, get_current_user db2 "tok9" = .ok u ∧
      u.id = "pat3" ∧ u.user_type = "patient" :=
  (signup_login_roundtrip init_data sd_new "pat3" db_after_signup rfl).1
    "tok9"

theorem digitChar_toNat : ∀ d : Nat, d < 10 → (Nat.digitChar d).toNat = 48 + d := by
  decide

theorem toDigitsCore_append (b : Nat) :
    ∀ (fuel n : Nat) (ds : List Char),
      Nat.toDigitsCore b fuel n ds = Nat.toDigitsCore b fuel n [] ++ ds := by
  intro fuel
  induction fuel with
  | zero => intro n ds; simp [Nat.toDigitsCore]
  | succ f ih =>
    intro n ds
    simp only [Nat.toDigitsCore]
    by_cases h : n / b = 0
    · simp [h]
    · simp only [h, if_false]
      rw [ih (n / b) (Nat.digitChar (n % b) :: ds),
        ih (n / b) [Nat.digitChar (n % b)]]
      simp

theorem decDigits_toDigitsCore :
    ∀ (fuel n : Nat), n < fuel →
      decDigits (Nat.toDigitsCore 10 fuel n []) = n := by
  intro fuel
  induction fuel with
  | zero => intro n h; exact absurd h (Nat.not_lt_zero n)
  | succ f ih =>
    intro n h
    simp only [Nat.toDigitsCore]
    by_cases h0 : n / 10 = 0
    · rw [if_pos h0]
      rw [show decDigits [Nat.digitChar (n % 10)] =
        0 * 10 + decDigit (Nat.digitChar (n % 10)) from rfl]
      rw [decDigit, digitChar_toNat (n % 10) (Nat.mod_lt n (by omega))]
      omega
    · rw [if_neg h0,
        toDigitsCore_append 10 f (n / 10) [Nat.digitChar (n % 10)]]
      unfold decDigits
      rw [List.foldl_append]
      rw [show ∀ a, List.foldl (fun a c => a * 10 + decDigit c) a
          [Nat.digitChar (n % 10)] =
        a * 10 + decDigit (Nat.digitChar (n % 10)) from fun a => rfl]
      rw [show List.foldl (fun a c => a * 10 + decDigit c) 0
          (Nat.toDigitsCore 10 f (n / 10) []) =
        decDigits (Nat.toDigitsCore 10 f (n / 10) []) from rfl]
      rw [ih (n / 10) (by omega)]
      rw [decDigit, digitChar_toNat (n % 10) (Nat.mod_lt n (by omega))]
      omega

theorem Nat_repr_data_inj (m n : Nat)
    (h : (Nat.repr m).data = (Nat.repr n).data) : m = n := by
  have hm := decDigits_toDigitsCore (m + 1) m (Nat.lt_succ_self m)
  have hn := decDigits_toDigitsCore (n + 1) n (Nat.lt_succ_self n)
  unfold Nat.repr Nat.toDigits at h
  have hlist : Nat.toDigitsCore 10 (m + 1) m [] =
      Nat.toDigitsCore 10 (n + 1) n [] := h
  rw [← hm, ← hn, hlist]

theorem patKey_injective : Function.Injective patKey := by
  intro m n h
  unfold patKey at h
  have hdata : ("pat" ++ Nat.repr m).data = ("pat" ++ Nat.repr n).data :=
    congrArg String.data h
  have happ : "pat".data ++ (Nat.repr m).data =
      "pat".data ++ (Nat.repr n).data := hdata
  exact Nat_repr_data_inj m n (List.append_cancel_left happ)

theorem patKeys_succ (n : Nat) :
    patKeys (n + 1) = patKeys n ++ [patKey (n + 1)] := by
  unfold patKeys
  rw [List.range_succ, List.map_append]
  rfl

theorem patKey_succ_not_mem (n : Nat) : patKey (n + 1) ∉ patKeys n := by
  intro hmem
  unfold patKeys at hmem
  rw [List.mem_map] at hmem
  obtain ⟨i, hi, hkey⟩ := hmem
  rw [List.mem_range] at hi
  have := patKey_injective hkey
  omega

theorem patKeys_nodup (n : Nat) : (patKeys n).Nodup := by
  refine List.Nodup.map ?_ (List.nodup_range n)
  intro a b h
  have := patKey_injective h
  omega

/-- What a successful signup did to the state. -/
theorem signup_ok_inv (db : DB) (sd : SignupRequest) (pid : String)
    (db1 : DB) (h : signup db sd = .ok (pid, db1)) :
    pid = patKey (db.patients_db.length + 1) ∧
    db1.patients_db = Table.insert db.patients_db pid
      ⟨pid, sd.name, sd.email, sd.phone, sd.date_of_birth, sd.address,
        sd.blood_group, sd.emergency_contact⟩ ∧
    db1.users_db = Table.insert db.users_db sd.email
      ⟨pid, sd.email, sd.password, sd.name, "patient"⟩ := by
  unfold signup at h
  by_cases hc : Table.contains db.users_db sd.email = true
  · rw [if_pos hc] at h; cases h
  · rw [if_neg hc] at h
    simp only [Except.ok.injEq, Prod.mk.injEq] at h
    obtain ⟨hpid, hdb⟩ := h
    subst hpid
    subst hdb
    exact ⟨rfl, rfl, rfl⟩

/-- Login leaves the Patient table unchanged. -/
theorem login_patients_db (db : DB) (ld : LoginRequest) (token : String)
    (r : LoginResponse) (db1 : DB) (h : login db ld token = .ok (r, db1)) :
    db1.patients_db = db.patients_db := by
  unfold login at h
  split at h
  · exact Except.noConfusion h
  · split at h
    · exact Except.noConfusion h
    · simp only [Except.ok.injEq, Prod.mk.injEq] at h
      obtain ⟨-, hdb⟩ := h
      subst hdb
      rfl

/-- Appointment creation leaves the Patient table unchanged. -/
theorem create_appointment_patients_db (db : DB)
    (ad : AppointmentRequest) (cu : User) (aid s : String) (db1 : DB)
    (h : create_appointment db ad cu aid = .ok (s, db1)) :
    db1.patients_db = db.patients_db := by
  unfold create_appointment at h
  split at h
  · exact Except.noConfusion h
  · simp only [Except.ok.injEq, Prod.mk.injEq] at h
    obtain ⟨-, hdb⟩ := h
    subst hdb
    rfl

/-- Every operation preserves the sequential-keys invariant. -/
theorem step_preserves_sequential (db : DB) (op : Op)
    (h : patient_ids_sequential db) :
    patient_ids_sequential (step db op) := by
  cases op with
  | signup sd =>
    simp only [step]
    cases hs : signup db sd with
    | error e => exact h
    | ok res =>
      obtain ⟨pid, db1⟩ := res
      obtain ⟨hpid, hpat, -⟩ := signup_ok_inv db sd pid db1 hs
      show patient_ids_sequential db1
      unfold patient_ids_sequential at h ⊢
      have hfresh : Table.get? db.patients_db pid = none := by
        rw [Table.get?_eq_none_iff, h, hpid]
        exact patKey_succ_not_mem db.patients_db.length
      rw [hpat, Table.insert_of_get?_eq_none _ _ _ hfresh]
      rw [show Table.keys (db.patients_db ++ [(pid, _)]) =
        Table.keys db.patients_db ++ [pid] from by
          unfold Table.keys; rw [List.map_append]; rfl]
      rw [List.length_append, h, hpid]
      exact (patKeys_succ db.patients_db.length).symm
  | login ld token =>
    simp only [step]
    cases hs : login db ld token with
    | error e => exact h
    | ok res =>
      obtain ⟨r, db1⟩ := res
      show patient_ids_sequential db1
      unfold patient_ids_sequential at h ⊢
      rw [login_patients_db db ld token r db1 hs]
      exact h
  | logout token => exact h
  | get_doctors => exact h
  | get_patients token => exact h
  | get_patient pid token => exact h
  | get_medical_records pid token => exact h
  | get_doctor_patients did token => exact h
  | get_appointments token => exact h
  | create_appointment ad token aid =>
    simp only [step]
    cases hcu : get_current_user db token with
    | error e => exact h
    | ok cu =>
      show patient_ids_sequential
        (match create_appointment db ad cu aid with
          | .ok (_, db1) => db1
          | .error _ => db)
      cases hs : create_appointment db ad cu aid with
      | error e => exact h
      | ok res =>
        obtain ⟨s, db1⟩ := res
        show patient_ids_sequential db1
        unfold patient_ids_sequential at h ⊢
        rw [create_appointment_patients_db db ad cu aid s db1 hs]
        exact h

/-- The seed state satisfies the invariant. -/
theorem init_data_sequential : patient_ids_sequential init_data := by
  unfold patient_ids_sequential
  decide

/-- The invariant holds after any sequence of operations from the seed
state. -/
theorem run_sequential (ops : List Op) :
    patient_ids_sequential (run init_data ops) := by
  suffices hgen : ∀ (db : DB), patient_ids_sequential db →
      patient_ids_sequential (run db ops) from
    hgen init_data init_data_sequential
  induction ops with
  | nil => intro db h; exact h
  | cons op ops ih =>
    intro db h
    exact ih (step db op) (step_preserves_sequential db op h)

/-- C10: after any sequence of operations from the seeded state, a
successful signup assigns the id "pat" followed by the Patient-table size
plus one; that id is not yet a key of the Patient table, the table's keys
are duplicate-free before and after, and the signup creates a User row and
a Patient row carrying that same fresh id. -/
theorem signup_assigns_fresh_sequential_id (ops : List Op)
    (sd : SignupRequest) (pid : String) (db1 : DB)
    (h : signup (run init_data ops) sd = .ok (pid, db1)) :
    pid = patKey ((run init_data ops).patients_db.length + 1) ∧
    Table.get? (run init_data ops).patients_db pid = none ∧
    (Table.keys (run init_data ops).patients_db).Nodup ∧
    (Table.keys db1.patients_db).Nodup ∧
    (∃ u, Table.get? db1.users_db sd.email = some u ∧ u.id = pid) ∧
    (∃ p, Table.get? db1.patients_db pid = some p ∧ p.id = pid) := by
  have hseq := run_sequential ops
  obtain ⟨hpid, hpat, husers⟩ :=
    signup_ok_inv (run init_data ops) sd pid db1 h
  have hfresh : Table.get? (run init_data ops).patients_db pid = none := by
    rw [Table.get?_eq_none_iff, hseq, hpid]
    exact patKey_succ_not_mem (run init_data ops).patients_db.length
  refine ⟨hpid, hfresh, ?_, ?_, ?_, ?_⟩
  · rw [hseq]; exact patKeys_nodup _
  · rw [hpat, Table.insert_of_get?_eq_none _ _ _ hfresh]
    rw [show Table.keys ((run init_data ops).patients_db ++ [(pid, _)]) =
      Table.keys (run init_data ops).patients_db ++ [pid] from by
        unfold Table.keys; rw [List.map_append]; rfl]
    rw [hseq, hpid]
    rw [← patKeys_succ]
    exact patKeys_nodup _
  · exact ⟨_, by rw [husers]; exact Table.get?_insert_self _ _ _, rfl⟩
  · exact ⟨_, by rw [hpat]; exact Table.get?_insert_self _ _ _, rfl⟩

/-- Witness for C10: the empty operation sequence and Neha's signup, which
gets the fresh id "pat3" on top of the two seed patients. -/
theorem signup_assigns_fresh_sequential_id_witness :
    "pat3" = patKey ((run init_data []).patients_db.length + 1) ∧
    Table.get? (run init_data []).patients_db "pat3" = none ∧
    (Table.keys (run init_data []).patients_db).Nodup ∧
    (Table.keys db_after_signup.patients_db).Nodup ∧
    (∃ u, Table.get? db_after_signup.users_db "neha.verma@email.com" =
      some u ∧ u.id = "pat3") ∧
    (∃ p, Table.get? db_after_signup.patients_db "pat3" = some p ∧
      p.id = "pat3") :=
  signup_assigns_fresh_sequential_id [] sd_new "pat3" db_after_signup rfl

end Healthcare
